import Mathlib

/-!
Verification of the Dynatrace API client core (`HttpClient` in
src/dynatrace-api/http_client.ts, embedded inside
src/src/dynatrace-api/configuration_v1/extensions.ts): the request
executor `makeRequest` (outgoing-config construction and error
normalization) and the paginator `paginatedCall`.
-/

namespace DynatraceHttp

/-- A JavaScript value as far as query parameters / bodies are concerned
(`Record<string, unknown>` in the source); only the constructors the
claims exercise are modelled. -/
inductive JsValue where
  | str (s : String)
  | num (n : Int)
  | undef
deriving DecidableEq

/-- A `Record<string, unknown>` of query parameters or body fields. -/
abbrev Params := List (String × JsValue)

/-- One entry of `constraintViolations` in the upstream error envelope
(src/dynatrace-api/interfaces/dynatrace.ts). -/
structure ConstraintViolation where
  path : String
  message : String
deriving DecidableEq

/-- The `error` field of the upstream error envelope. -/
structure ErrorEnvelopeError where
  code : Int
  message : String
  constraintViolations : List ConstraintViolation
deriving DecidableEq

/-- The upstream error envelope: a JSON body of shape
`{error: {code, message, constraintViolations}}`. -/
structure ErrorEnvelope where
  error : ErrorEnvelopeError
deriving DecidableEq

/-- Modelled from the spec: the class `DynatraceAPIError`
(src/dynatrace-api/errors.ts) is not under src/; only its construction
sites (`makeRequest`) and consumers (`err.errorParams.message` in the
build workflow) are. Per the spec's Normalized Error it carries a
human-readable message plus structured detail (`errorParams`): an HTTP
status code, a textual message, and constraint violations. -/
structure DynatraceAPIError where
  message : String
  errorParams : ErrorEnvelopeError
deriving DecidableEq

/-! ## Headers

A JavaScript object keyed by strings, modelled as an insertion-ordered
association list with unique keys. Assignment updates an existing key in
place or appends a fresh one; the `in` operator tests key membership. -/

abbrev Headers := List (String × String)

/-- JavaScript `key in obj` on a headers object. -/
def hhas : Headers → String → Bool
  | [], _ => false
  | e :: t, k => e.1 = k || hhas t k

/-- JavaScript `obj[key] = v` on a headers object. -/
def hset : Headers → String → String → Headers
  | [], k, v => [(k, v)]
  | e :: t, k, v => if e.1 = k then (k, v) :: t else e :: hset t k v

/-- JavaScript `obj[key]` on a headers object. -/
def hget : Headers → String → Option String
  | [], _ => none
  | e :: t, k => if e.1 = k then some e.2 else hget t k

theorem hget_hset_self (hs : Headers) (k v : String) :
    hget (hset hs k v) k = some v := by
  induction hs with
  | nil => simp [hset, hget]
  | cons e t ih =>
    by_cases h : e.1 = k <;> simp [hset, hget, h, ih]

theorem hget_hset_ne (hs : Headers) (k q v : String) (h : k ≠ q) :
    hget (hset hs q v) k = hget hs k := by
  have hqk : ¬q = k := fun he => h he.symm
  induction hs with
  | nil => simp [hset, hget, hqk]
  | cons e t ih =>
    by_cases he : e.1 = q
    · have hek : ¬e.1 = k := by rw [he]; exact hqk
      simp [hset, hget, he, hqk, hek]
    · by_cases hk : e.1 = k <;> simp [hset, hget, he, hk, ih, h]

theorem hhas_of_hget_some (hs : Headers) (k v : String)
    (h : hget hs k = some v) : hhas hs k = true := by
  induction hs with
  | nil => simp [hget] at h
  | cons e t ih =>
    by_cases he : e.1 = k
    · simp [hhas, he]
    · simp [hget, he] at h
      simp [hhas, he, ih h]

/-! ## makeRequest: outgoing request construction

`makeRequest(path, params?, method = "GET", headers = {}, queryParams?,
files?, responseType?)` builds the config object passed to
`axios.request`. JavaScript `null` and `undefined` are both modelled as
`none`. -/

/-- The `files` argument: `{file: Buffer, name: string}`. The byte type
is a parameter. -/
structure FilePayload (β : Type) where
  file : β
  name : String
deriving DecidableEq

/-- One part of a `FormData` body: field name, content, filename. -/
structure FormPart (β : Type) where
  fieldName : String
  content : β
  filename : String
deriving DecidableEq

/-- The `data` field given to `axios.request`: `null`, a JSON body
object, or a multipart form. -/
inductive ReqData (β : Type) where
  | null
  | json (body : Params)
  | form (parts : List (FormPart β))
deriving DecidableEq

/-- The object literal passed to `axios.request` in `makeRequest`:
`{url, headers, params, method, data, responseType}`. -/
structure AxiosConfig (β : Type) where
  url : String
  headers : Headers
  params : Option Params
  method : String
  data : ReqData β
  responseType : Option String
deriving DecidableEq

/-- The request-construction half of `makeRequest` (source lines up to
the `axios.request` call): body/params swap for POST and PUT, content
type defaulting, multipart form for file attachments, and the
Authorization header. -/
def buildConfig {β : Type} (baseUrl apiToken path : String)
    (params : Option Params) (method : String) (headers : Headers)
    (queryParams : Option Params) (files : Option (FilePayload β))
    (responseType : Option String) : AxiosConfig β :=
  let url := baseUrl ++ path
  let bp : Option Params × Option Params :=
    if method = "POST" ∨ method = "PUT" then (params, queryParams)
    else (none, params)
  let body := bp.1
  let params := bp.2
  let headers :=
    if hhas headers "Content-Type" then headers
    else hset headers "Content-type" "application/json"
  let headers :=
    match files with
    | some _ => hset headers "Content-type" "multipart/form-data"
    | none => headers
  let headers := hset headers "Authorization" ("Api-Token " ++ apiToken)
  let data : ReqData β :=
    match files with
    | some f => ReqData.form [⟨"file", f.file, f.name⟩]
    | none =>
      match body with
      | some b => ReqData.json b
      | none => ReqData.null
  ⟨url, headers, params, method, data, responseType⟩

/-! ## makeRequest: response handling and error normalization

The transport boundary is modelled in two layers. An `HttpOutcome` is
what happened on the wire: the server responded with some status and
body (readable both as the decoded success type and, via the source's
unchecked cast, as an error envelope), or the request was sent but
nothing came back, or the failure happened before transmission.
`axiosDeliver` models the axios library's default behaviour
(`validateStatus`): a response with status at least 400 is delivered as
a rejection carrying the response, a sent-but-unanswered request as a
rejection carrying only the request, anything else as a plain error. -/

/-- What happened on the wire for one request. -/
inductive HttpOutcome (T : Type) where
  | response (status : Nat) (decoded : T) (envelope : ErrorEnvelope)
  | noResponse (transportMessage : String)
  | sendFailure (message : String)

/-- What axios hands to the `.then`/`.catch` chain. -/
inductive AxiosDelivery (T : Type) where
  | resolved (status : Nat) (decoded : T) (envelope : ErrorEnvelope)
  | rejectedResponse (message : String) (responseData : ErrorEnvelope)
  | rejectedRequest (message : String)
  | rejectedOther (message : String)

/-- Axios default delivery (external library behaviour): status at
least 400 rejects with the response attached and the message
`Request failed with status code N`. -/
def axiosDeliver {T : Type} : HttpOutcome T → AxiosDelivery T
  | .response s d env =>
    if 400 ≤ s then
      .rejectedResponse ("Request failed with status code " ++ toString s) env
    else .resolved s d env
  | .noResponse m => .rejectedRequest m
  | .sendFailure m => .rejectedOther m

/-- The classification the `.catch` handler performs on the caught
value via `Object.keys(err).includes(...)`: it has a `response` key, or
only a `request` key, or neither. -/
inductive CaughtErr where
  | withResponse (message : String) (envelope : ErrorEnvelope)
  | withRequest (message : String)
  | other (message : String)

/-- The `.catch` handler of `makeRequest`: the three-way error
normalization. Field order of the object literals in the source is
`{code, constraintViolations, message}`; the structure fields are the
same three values. -/
def catchBranch (url baseUrl : String) : CaughtErr → DynatraceAPIError
  | .withResponse m env => ⟨m, env.error⟩
  | .withRequest m =>
    ⟨"No response from server " ++ baseUrl, ⟨0, m, []⟩⟩
  | .other m =>
    let msg := "Error making request to " ++ url ++ ": " ++ m ++ "."
    ⟨msg, ⟨0, msg, []⟩⟩

/-- The `.then` handler of `makeRequest`: a resolved response with
status at least 400 is turned into a thrown `DynatraceAPIError` whose
message embeds the stringified body (`JSON.stringify` is the external
`stringifyBody` argument); otherwise the decoded data is returned. -/
def thenBranch {T : Type} (url : String)
    (stringifyBody : ErrorEnvelope → String) (status : Nat) (decoded : T)
    (env : ErrorEnvelope) : Except DynatraceAPIError T :=
  if 400 ≤ status then
    let body := stringifyBody env
    .error ⟨"Error making request to " ++ url ++ ": " ++ toString status
        ++ ". Response: " ++ body, env.error⟩
  else .ok decoded

/-- The composed `.then(...).catch(...)` chain. A `DynatraceAPIError`
thrown inside `.then` lands in `.catch`; its own enumerable keys include
neither `response` nor `request`, so it reaches the final branch and is
re-wrapped there (this path is unreachable under the default axios
delivery, which never resolves a status of 400 or more). -/
def handleDelivery {T : Type} (url baseUrl : String)
    (stringifyBody : ErrorEnvelope → String) :
    AxiosDelivery T → Except DynatraceAPIError T
  | .resolved s d env =>
    match thenBranch url stringifyBody s d env with
    | .ok v => .ok v
    | .error e => .error (catchBranch url baseUrl (.other e.message))
  | .rejectedResponse m env => .error (catchBranch url baseUrl (.withResponse m env))
  | .rejectedRequest m => .error (catchBranch url baseUrl (.withRequest m))
  | .rejectedOther m => .error (catchBranch url baseUrl (.other m))

/-- The response-handling half of `makeRequest` for one wire outcome:
`url` is `baseUrl + path` as in the source. -/
def makeRequestResult {T : Type} (baseUrl path : String)
    (stringifyBody : ErrorEnvelope → String) (outcome : HttpOutcome T) :
    Except DynatraceAPIError T :=
  handleDelivery (baseUrl ++ path) baseUrl stringifyBody (axiosDeliver outcome)

/-- Claim C1: for every HTTP response with status at least 400 carrying
a valid error envelope, `makeRequest` fails with a Normalized Error
whose status code, message, and constraint violations equal the
envelope's `error` fields exactly. -/
theorem makeRequest_error_envelope_exact {T : Type} (baseUrl path : String)
    (stringifyBody : ErrorEnvelope → String) (s : Nat) (d : T)
    (env : ErrorEnvelope) (hs : 400 ≤ s) :
    ∃ e : DynatraceAPIError,
      makeRequestResult baseUrl path stringifyBody (.response s d env) = .error e ∧
      e.errorParams.code = env.error.code ∧
      e.errorParams.message = env.error.message ∧
      e.errorParams.constraintViolations = env.error.constraintViolations := by
  refine ⟨⟨"Request failed with status code " ++ toString s, env.error⟩, ?_, rfl, rfl, rfl⟩
  simp [makeRequestResult, axiosDeliver, handleDelivery, catchBranch, hs]

/-- Witness for C1: the spec scenario, a 401 whose envelope message is
`Token Authentication failed`. -/
theorem makeRequest_error_envelope_exact_witness :
    ∃ e : DynatraceAPIError,
      makeRequestResult "https://env.dynatrace.com" "/api/v2/entities"
          (fun _ => "{}")
          (.response 401 (0 : Int) ⟨⟨401, "Token Authentication failed", []⟩⟩) = .error e ∧
      e.errorParams.code = (401 : Int) ∧
      e.errorParams.message = "Token Authentication failed" ∧
      e.errorParams.constraintViolations = [] :=
  makeRequest_error_envelope_exact "https://env.dynatrace.com" "/api/v2/entities"
    (fun _ => "{}") 401 (0 : Int) ⟨⟨401, "Token Authentication failed", []⟩⟩
    (by decide)

/-- Claim C3: for every transport failure where the request was sent
but no response arrived, `makeRequest` fails with status code 0,
message exactly `No response from server <baseUrl>`, the transport
error's message in the detail, and no constraint violations. -/
theorem makeRequest_no_response {T : Type} (baseUrl path : String)
    (stringifyBody : ErrorEnvelope → String) (m : String) :
    makeRequestResult (T := T) baseUrl path stringifyBody (.noResponse m) =
      .error ⟨"No response from server " ++ baseUrl, ⟨0, m, []⟩⟩ :=
  rfl

/-- Claim C7: every failure that is neither an HTTP error response nor
a sent-but-unanswered request fails with status 0 and the synthesized
message `Error making request to <url>: <underlying message>.`,
duplicated into the detail message. -/
theorem makeRequest_unexpected_failure {T : Type} (baseUrl path : String)
    (stringifyBody : ErrorEnvelope → String) (m : String) :
    makeRequestResult (T := T) baseUrl path stringifyBody (.sendFailure m) =
      .error
        ⟨"Error making request to " ++ (baseUrl ++ path) ++ ": " ++ m ++ ".",
          ⟨0, "Error making request to " ++ (baseUrl ++ path) ++ ": " ++ m ++ ".", []⟩⟩ :=
  rfl

/-- Claim C5: with a file attachment the outgoing content type entry is
`multipart/form-data` and the wire body is exactly one part named
`file` holding the supplied bytes under the attachment's filename; the
caller-supplied JSON body (`params` of a POST or PUT) is ignored. -/
theorem buildConfig_file_upload {β : Type} (baseUrl apiToken path : String)
    (params : Option Params) (method : String) (headers : Headers)
    (queryParams : Option Params) (f : FilePayload β) (rt : Option String) :
    (buildConfig baseUrl apiToken path params method headers queryParams
        (some f) rt).data = ReqData.form [⟨"file", f.file, f.name⟩] ∧
    hget (buildConfig baseUrl apiToken path params method headers queryParams
        (some f) rt).headers "Content-type" = some "multipart/form-data" := by
  constructor
  · simp [buildConfig]
  · show hget (hset _ "Authorization" _) "Content-type" = _
    rw [hget_hset_ne _ _ _ _ (by decide)]
    exact hget_hset_self _ _ _

/-- Claim C6 (amended): without a file attachment the content type
defaults to `application/json` unless the caller supplied a header
under the exact key `Content-Type`, in which case the caller's entry is
left unchanged and no default is written. The source's presence check
uses the key `Content-Type` while its default write uses the key
`Content-type`, so only that exact spelling suppresses the default. -/
theorem buildConfig_content_type_default {β : Type}
    (baseUrl apiToken path : String) (params : Option Params)
    (method : String) (headers : Headers) (queryParams : Option Params)
    (rt : Option String) :
    (hhas headers "Content-Type" = false →
      hget (buildConfig (β := β) baseUrl apiToken path params method headers
          queryParams none rt).headers "Content-type" = some "application/json") ∧
    (∀ v, hget headers "Content-Type" = some v →
      hget (buildConfig (β := β) baseUrl apiToken path params method headers
          queryParams none rt).headers "Content-Type" = some v ∧
      hget (buildConfig (β := β) baseUrl apiToken path params method headers
          queryParams none rt).headers "Content-type" = hget headers "Content-type") := by
  constructor
  · intro hno
    show hget (hset _ "Authorization" _) "Content-type" = _
    rw [hget_hset_ne _ _ _ _ (by decide)]
    simp only [buildConfig, hno, Bool.false_eq_true, if_false]
    exact hget_hset_self _ _ _
  · intro v hv
    have hyes : hhas headers "Content-Type" = true := hhas_of_hget_some _ _ _ hv
    constructor
    · show hget (hset _ "Authorization" _) "Content-Type" = _
      rw [hget_hset_ne _ _ _ _ (by decide)]
      simp only [buildConfig, hyes, if_true]
      exact hv
    · show hget (hset _ "Authorization" _) "Content-type" = _
      rw [hget_hset_ne _ _ _ _ (by decide)]
      simp only [buildConfig, hyes, if_true]

/-- Witness for the amended C6: a caller without any content type gets
`application/json`; a caller with the exact key `Content-Type` keeps
its value. -/
theorem buildConfig_content_type_default_witness :
    hget (buildConfig (β := Unit) "https://e" "tok" "/p" none "GET" []
        none none none).headers "Content-type" = some "application/json" ∧
    (hget (buildConfig (β := Unit) "https://e" "tok" "/p" none "GET"
          [("Content-Type", "text/plain")] none none none).headers "Content-Type"
        = some "text/plain" ∧
      hget (buildConfig (β := Unit) "https://e" "tok" "/p" none "GET"
          [("Content-Type", "text/plain")] none none none).headers "Content-type"
        = hget [("Content-Type", "text/plain")] "Content-type") :=
  ⟨(buildConfig_content_type_default "https://e" "tok" "/p" none "GET" []
      none none).1 rfl,
    (buildConfig_content_type_default "https://e" "tok" "/p" none "GET"
      [("Content-Type", "text/plain")] none none).2 "text/plain" rfl⟩

/-- Counterexample to C6 as stated: the caller supplies a content-type
header under the spelling `Content-type`; the presence check looks only
for `Content-Type`, so the caller's value `text/xml` is overwritten
with `application/json` instead of being used unchanged. -/
theorem buildConfig_content_type_case_counterexample :
    hget (buildConfig (β := Unit) "https://e" "tok" "/p" none "GET"
        [("Content-type", "text/xml")] none none none).headers "Content-type"
      = some "application/json" ∧
    hget (buildConfig (β := Unit) "https://e" "tok" "/p" none "GET"
        [("Content-type", "text/xml")] none none none).headers "Content-type"
      ≠ some "text/xml" := by
  constructor
  · rfl
  · decide

/-- Claim C10: the outgoing Authorization header is
`Api-Token <token>` unconditionally; any caller-supplied Authorization
entry is overwritten (the source performs the overwrite by mutating the
caller's headers object in place, which the state-passing embedding
renders as the final `hset`). -/
theorem buildConfig_authorization {β : Type} (baseUrl apiToken path : String)
    (params : Option Params) (method : String) (headers : Headers)
    (queryParams : Option Params) (files : Option (FilePayload β))
    (rt : Option String) :
    hget (buildConfig baseUrl apiToken path params method headers queryParams
        files rt).headers "Authorization" = some ("Api-Token " ++ apiToken) :=
  hget_hset_self _ _ _

/-- Claim C8 context: the `makeRequest` under src takes no cancellation
handle (no `signal` parameter exists and none of the config fields
passed to `axios.request` carries one), so a triggered handle cannot
alter the outcome; at the failing input the call simply returns the
normal response. -/
theorem makeRequest_has_no_cancellation_input :
    makeRequestResult "https://env.dynatrace.com" "/api/config/v1/extensions"
        (fun _ => "{}")
        (.response 200 ([] : List Int) ⟨⟨0, "", []⟩⟩) = .ok [] :=
  rfl

/-! ## paginatedCall

`paginatedCall(path, item, params?, headers = {})` drives `makeRequest`
across the `nextPageKey` cursor protocol. The per-page transport is
modelled as the list of `makeRequest` results the mock server produces,
one per issued request, in order; `path` and `headers` are forwarded
verbatim to every `makeRequest` call and play no role in the loop. The
embedding also returns the list of `params` values each issued request
carried, so request counts and shapes are provable. -/

/-- One decoded page: the optional `nextPageKey` cursor and, when the
caller-named item field is present in the response, its array. -/
structure PageResponse (α : Type) where
  nextPageKey : Option String
  items : Option (List α)
deriving DecidableEq

/-- JavaScript truthiness of `string | undefined`: present and
non-empty. -/
def truthy : Option String → Bool
  | none => false
  | some s => s != ""

/-- The params object `{nextPageKey: <cursor>}` the loop substitutes on
subsequent pages. -/
def cursorOnly (k : String) : Option Params :=
  some [("nextPageKey", JsValue.str k)]

/-- The cursor-dependent params for one iteration: the guard
`nextPageKey !== "firstCall"` decides whether the previous `params` are
kept or replaced by the cursor object. -/
def effectiveParams (params : Option Params) (k : String) : Option Params :=
  if k != "firstCall" then cursorOnly k else params

/-- Result of a paginated run against a finite mock transport:
`result` is `none` when the mock ran out of responses (a real server
always answers), otherwise the returned item list or the propagated
error; `requests` lists the `params` of every issued request. -/
structure PagResult (α : Type) where
  result : Option (Except DynatraceAPIError (List α))
  requests : List (Option Params)

/-- The params sent on one iteration: for a present cursor the
`nextPageKey !== "firstCall"` guard applies (a truthy cursor is always
present, so the `none` arm is never taken by a running loop). -/
def stepParams (params : Option Params) (cursor : Option String) : Option Params :=
  match cursor with
  | some k => effectiveParams params k
  | none => params

/-- The `while (nextPageKey)` loop of `paginatedCall`: `pages` are the
mock transport's successive `makeRequest` results. -/
def paginatedGo {α : Type} :
    List (Except DynatraceAPIError (PageResponse α)) → Option Params →
    Option String → List α → PagResult α
  | [], params, cursor, acc =>
    if truthy cursor then { result := none, requests := [stepParams params cursor] }
    else { result := some (.ok acc), requests := [] }
  | resp :: rest, params, cursor, acc =>
    if truthy cursor then
      let ps := stepParams params cursor
      match resp with
      | .error e => { result := some (.error e), requests := [ps] }
      | .ok page =>
        let r := paginatedGo rest ps page.nextPageKey (acc ++ page.items.getD [])
        { result := r.result, requests := ps :: r.requests }
    else { result := some (.ok acc), requests := [] }

/-- `paginatedCall`: the loop started with the sentinel cursor
`firstCall` and an empty accumulator. -/
def paginatedCall {α : Type}
    (pages : List (Except DynatraceAPIError (PageResponse α)))
    (params : Option Params) : PagResult α :=
  paginatedGo pages params (some "firstCall") []

/-- Concatenation of the pages' item arrays in page order and
within-page order, pages without the item field contributing nothing. -/
def allItems {α : Type} : List (PageResponse α) → List α
  | [] => []
  | p :: rest => p.items.getD [] ++ allItems rest

/-- The request params the claim predicts: the first request carries
the given params, each subsequent request exactly
`{nextPageKey: <previous page's cursor>}`. -/
def expectedRequests {α : Type} (params : Option Params) :
    List (PageResponse α) → List (Option Params)
  | [] => []
  | p :: rest =>
    params :: expectedRequests (cursorOnly (p.nextPageKey.getD "")) rest

/-- A well-formed mock page sequence: every page before the last has a
present, non-empty cursor different from the reserved sentinel
`firstCall`, and the last page's cursor is absent or empty. -/
def goodChain {α : Type} : List (PageResponse α) → Bool
  | [] => false
  | [p] => !truthy p.nextPageKey
  | p :: rest =>
    (match p.nextPageKey with
      | some k => k != "" && k != "firstCall"
      | none => false) && goodChain rest

theorem truthy_some_iff (o : Option String) :
    truthy o = true ↔ ∃ s, o = some s ∧ s ≠ "" := by
  cases o <;> simp [truthy]

theorem paginatedGo_done {α : Type}
    (pages : List (Except DynatraceAPIError (PageResponse α)))
    (params : Option Params) (cursor : Option String) (acc : List α)
    (h : truthy cursor = false) :
    paginatedGo pages params cursor acc =
      { result := some (.ok acc), requests := [] } := by
  cases pages <;> simp [paginatedGo, h]

theorem paginatedGo_nil_run {α : Type} (params : Option Params) (c : String)
    (acc : List α) (h : (c != "") = true) :
    paginatedGo ([] : List (Except DynatraceAPIError (PageResponse α)))
        params (some c) acc =
      { result := none, requests := [effectiveParams params c] } := by
  simp [paginatedGo, truthy, stepParams, h]

theorem paginatedGo_cons_error {α : Type} (e : DynatraceAPIError)
    (rest : List (Except DynatraceAPIError (PageResponse α)))
    (params : Option Params) (c : String) (acc : List α)
    (h : (c != "") = true) :
    paginatedGo (.error e :: rest) params (some c) acc =
      { result := some (.error e), requests := [effectiveParams params c] } := by
  simp [paginatedGo, truthy, stepParams, h]

theorem paginatedGo_cons_ok {α : Type} (page : PageResponse α)
    (rest : List (Except DynatraceAPIError (PageResponse α)))
    (params : Option Params) (c : String) (acc : List α)
    (h : (c != "") = true) :
    paginatedGo (.ok page :: rest) params (some c) acc =
      { result := (paginatedGo rest (effectiveParams params c) page.nextPageKey
          (acc ++ page.items.getD [])).result,
        requests := effectiveParams params c ::
          (paginatedGo rest (effectiveParams params c) page.nextPageKey
            (acc ++ page.items.getD [])).requests } := by
  simp [paginatedGo, truthy, stepParams, h]

theorem paginatedGo_goodChain {α : Type} (l : List (PageResponse α)) :
    ∀ (c : String) (params : Option Params) (acc : List α),
      c ≠ "" → goodChain l = true →
      paginatedGo (l.map .ok) params (some c) acc =
        { result := some (.ok (acc ++ allItems l)),
          requests := expectedRequests (effectiveParams params c) l } := by
  induction l with
  | nil => intro c params acc _ hchain; simp [goodChain] at hchain
  | cons p rest ih =>
    intro c params acc hc hchain
    have hcb : (c != "") = true := by simpa using hc
    cases rest with
    | nil =>
      have hkey : truthy p.nextPageKey = false := by
        simpa [goodChain] using hchain
      rw [List.map_cons, List.map_nil, paginatedGo_cons_ok _ _ _ _ _ hcb,
        paginatedGo_done _ _ _ _ hkey]
      simp [allItems, expectedRequests]
    | cons q rest2 =>
      obtain ⟨k, hpk, hkne, hkfc⟩ :
          ∃ k, p.nextPageKey = some k ∧ (k != "") = true ∧
            (k != "firstCall") = true := by
        cases hpk : p.nextPageKey with
        | none => simp [goodChain, hpk] at hchain
        | some k =>
          refine ⟨k, rfl, ?_, ?_⟩ <;>
            (simp [goodChain, hpk] at hchain; simp [hchain.1])
      have hchain2 : goodChain (q :: rest2) = true := by
        simp [goodChain, hpk] at hchain
        simpa [goodChain] using hchain.2
      have hrec := ih k (effectiveParams params c) (acc ++ p.items.getD [])
        (by simpa using hkne) hchain2
      have heff : effectiveParams (effectiveParams params c) k = cursorOnly k := by
        simp [effectiveParams, hkfc]
      rw [List.map_cons, paginatedGo_cons_ok _ _ _ _ _ hcb, hpk, hrec, heff]
      simp [allItems, expectedRequests, hpk, List.append_assoc]

theorem expectedRequests_length {α : Type} (l : List (PageResponse α)) :
    ∀ params : Option Params, (expectedRequests params l).length = l.length := by
  induction l with
  | nil => intro params; rfl
  | cons p rest ih => intro params; simp [expectedRequests, ih]

theorem expectedRequests_succ {α : Type} (l : List (PageResponse α)) :
    ∀ (params : Option Params) (i : Nat), i + 1 < l.length →
      (expectedRequests params l)[i + 1]? =
        (l[i]?).map (fun p => cursorOnly (p.nextPageKey.getD "")) := by
  induction l with
  | nil => intro params i h; simp at h
  | cons p rest ih =>
    intro params i h
    cases i with
    | zero =>
      cases rest with
      | nil => simp at h
      | cons q rest2 => simp [expectedRequests]
    | succ j =>
      have hj : j + 1 < rest.length := by
        simpa using Nat.lt_of_succ_lt_succ h
      simpa [expectedRequests] using ih (cursorOnly (p.nextPageKey.getD "")) j hj

/-- Claim C2 (amended): for every finite page sequence whose last page
has an absent or empty `nextPageKey`, whose other pages carry present
non-empty cursors, and whose cursors all differ from the reserved
sentinel `firstCall`, `paginatedCall` returns the concatenation of the
pages' item arrays in page and within-page order, issues exactly one
request per page, sends the caller's params on the first request, and
on every later request sends exactly `{nextPageKey: <previous cursor>}`
with the original params not repeated. -/
theorem paginatedCall_pagination {α : Type} (l : List (PageResponse α))
    (params : Option Params) (h : goodChain l = true) :
    paginatedCall (l.map .ok) params =
      { result := some (.ok (allItems l)),
        requests := expectedRequests params l } ∧
    (expectedRequests params l).length = l.length ∧
    (expectedRequests params l)[0]? = some params ∧
    ∀ i : Nat, i + 1 < l.length →
      (expectedRequests params l)[i + 1]? =
        (l[i]?).map (fun p => cursorOnly (p.nextPageKey.getD "")) := by
  refine ⟨?_, expectedRequests_length l params, ?_, expectedRequests_succ l params⟩
  · have hrun := paginatedGo_goodChain l "firstCall" params [] (by decide) h
    have heff : effectiveParams params "firstCall" = params := by
      simp [effectiveParams]
    simpa [paginatedCall, heff] using hrun
  · cases l with
    | nil => simp [goodChain] at h
    | cons p rest => simp [expectedRequests]

/-- Witness for the amended C2: the spec scenario, two pages with items
`[1, 2]` then `[3]` and cursors `k1` then empty, under original filter
params: the result is `[1, 2, 3]`, two requests, the second carrying
exactly the cursor object. -/
theorem paginatedCall_pagination_witness :
    paginatedCall
        [Except.ok (PageResponse.mk (some "k1") (some [1, 2])),
          Except.ok (PageResponse.mk (some "") (some [3]))]
        (some [("entitySelector", JsValue.str "type(HOST)")]) =
      { result := some (Except.ok ([1, 2, 3] : List Int)),
        requests :=
          [some [("entitySelector", JsValue.str "type(HOST)")],
            some [("nextPageKey", JsValue.str "k1")]] } := by
  have h := (paginatedCall_pagination
    [PageResponse.mk (some "k1") (some [1, 2]),
      PageResponse.mk (some "") (some ([3] : List Int))]
    (some [("entitySelector", JsValue.str "type(HOST)")]) (by decide)).1
  simpa [allItems, expectedRequests, cursorOnly] using h

/-- Counterexample to C2 as stated: a server-issued cursor equal to the
internal sentinel `firstCall` makes the second request repeat the
caller's original params instead of carrying
`{nextPageKey: "firstCall"}` as the claim demands. -/
theorem paginatedCall_pagination_counterexample :
    (paginatedCall
        [Except.ok (PageResponse.mk (some "firstCall") (some [1])),
          Except.ok (PageResponse.mk (some "") (some ([2] : List Int)))]
        (some [("filter", JsValue.str "x")])).requests[1]?
      = some (some [("filter", JsValue.str "x")]) ∧
    (paginatedCall
        [Except.ok (PageResponse.mk (some "firstCall") (some [1])),
          Except.ok (PageResponse.mk (some "") (some ([2] : List Int)))]
        (some [("filter", JsValue.str "x")])).requests[1]?
      ≠ some (some [("nextPageKey", JsValue.str "firstCall")]) := by
  constructor
  · rfl
  · decide

/-- Claim C4: when some page's request fails, the loop stops at that
page with exactly one request per page reached, the failing page's
error is the overall result, and no accumulated items are returned. -/
theorem paginatedCall_error_propagation {α : Type}
    (ps : List (PageResponse α)) (e : DynatraceAPIError)
    (rest : List (Except DynatraceAPIError (PageResponse α)))
    (params : Option Params)
    (h : ∀ p ∈ ps, truthy p.nextPageKey = true) :
    ∃ reqs,
      paginatedCall (ps.map .ok ++ .error e :: rest) params =
        { result := some (.error e), requests := reqs } ∧
      reqs.length = ps.length + 1 := by
  suffices hgen : ∀ (ps : List (PageResponse α)) (c : String)
      (params : Option Params) (acc : List α), c ≠ "" →
      (∀ p ∈ ps, truthy p.nextPageKey = true) →
      ∃ reqs,
        paginatedGo (ps.map .ok ++ .error e :: rest) params (some c) acc =
          { result := some (.error e), requests := reqs } ∧
        reqs.length = ps.length + 1 by
    exact hgen ps "firstCall" params [] (by decide) h
  intro ps
  induction ps with
  | nil =>
    intro c params acc hc _
    have hcb : (c != "") = true := by simpa using hc
    exact ⟨[effectiveParams params c],
      by simpa using paginatedGo_cons_error e rest params c acc hcb, rfl⟩
  | cons p rest2 ih =>
    intro c params acc hc hall
    have hcb : (c != "") = true := by simpa using hc
    obtain ⟨k, hpk, hkne⟩ := (truthy_some_iff p.nextPageKey).mp
      (hall p (List.mem_cons_self _ _))
    have hkb : (k != "") = true := by simpa using hkne
    obtain ⟨reqs, hrun, hlen⟩ := ih k (effectiveParams params c)
      (acc ++ p.items.getD []) hkne
      (fun q hq => hall q (List.mem_cons_of_mem p hq))
    refine ⟨effectiveParams params c :: reqs, ?_, by simp [hlen]⟩
    rw [List.map_cons, List.cons_append, paginatedGo_cons_ok _ _ _ _ _ hcb,
      hpk, hrun]

/-- Witness for C4: one good page then a failing one; the error comes
back, no items, two requests issued. -/
theorem paginatedCall_error_propagation_witness :
    ∃ reqs,
      paginatedCall
          [Except.ok (PageResponse.mk (some "k1") (some ([1] : List Int))),
            Except.error (DynatraceAPIError.mk "boom" ⟨500, "boom", []⟩),
            Except.ok (PageResponse.mk none (some [9]))]
          (some [("filter", JsValue.str "x")]) =
        { result := some (.error (DynatraceAPIError.mk "boom" ⟨500, "boom", []⟩)),
          requests := reqs } ∧
      reqs.length = 2 :=
  paginatedCall_error_propagation
    [PageResponse.mk (some "k1") (some ([1] : List Int))]
    (DynatraceAPIError.mk "boom" ⟨500, "boom", []⟩)
    [Except.ok (PageResponse.mk none (some [9]))]
    (some [("filter", JsValue.str "x")])
    (by intro p hp; simp at hp; subst hp; rfl)

theorem effectiveParams_ne_sentinel (params : Option Params) (k : String)
    (h : params ≠ cursorOnly "firstCall") :
    effectiveParams params k ≠ cursorOnly "firstCall" := by
  unfold effectiveParams
  split
  · rename_i hk
    intro he
    simp [cursorOnly] at he
    simp [he] at hk
  · exact h

/-- Claim C9: the paginator's internal first-iteration sentinel is the
literal string `firstCall`. A page whose response carries
`nextPageKey = "firstCall"` keeps the loop going but the next request
repeats the previous request's params unchanged instead of sending that
cursor; consequently, as long as the caller's original params are not
themselves the cursor object for `firstCall`, no issued request ever
carries `{nextPageKey: "firstCall"}`. -/
theorem paginatedCall_firstCall_sentinel {α : Type} :
    (∀ (p q : PageResponse α)
        (rest : List (Except DynatraceAPIError (PageResponse α)))
        (params : Option Params) (acc : List α) (c : Option String),
      truthy c = true → p.nextPageKey = some "firstCall" →
      2 ≤ (paginatedGo (.ok p :: .ok q :: rest) params c acc).requests.length ∧
      (paginatedGo (.ok p :: .ok q :: rest) params c acc).requests[1]? =
        (paginatedGo (.ok p :: .ok q :: rest) params c acc).requests[0]?) ∧
    (∀ (pages : List (Except DynatraceAPIError (PageResponse α)))
        (params : Option Params) (cursor : Option String) (acc : List α),
      params ≠ cursorOnly "firstCall" →
      ∀ req ∈ (paginatedGo pages params cursor acc).requests,
        req ≠ cursorOnly "firstCall") := by
  constructor
  · intro p q rest params acc c hc hpk
    obtain ⟨s, hs, hsne⟩ := (truthy_some_iff c).mp hc
    subst hs
    have hsb : (s != "") = true := by simpa using hsne
    have hfc1 : ("firstCall" != "") = true := rfl
    have hfc2 : effectiveParams (effectiveParams params s) "firstCall" =
        effectiveParams params s := by simp [effectiveParams]
    rw [paginatedGo_cons_ok _ _ _ _ _ hsb, hpk,
      paginatedGo_cons_ok _ _ _ _ _ hfc1, hfc2]
    simp
  · intro pages
    induction pages with
    | nil =>
      intro params cursor acc hp req hreq
      cases cursor with
      | none => rw [paginatedGo_done _ params none acc rfl] at hreq; simp at hreq
      | some k =>
        by_cases hk : (k != "") = true
        · rw [paginatedGo_nil_run _ _ _ hk] at hreq
          simp at hreq
          subst hreq
          exact effectiveParams_ne_sentinel params k hp
        · rw [paginatedGo_done _ _ _ _ (by simpa [truthy] using hk)] at hreq
          simp at hreq
    | cons pg rest ih =>
      intro params cursor acc hp req hreq
      cases cursor with
      | none => rw [paginatedGo_done _ params none acc rfl] at hreq; simp at hreq
      | some k =>
        by_cases hk : (k != "") = true
        · cases pg with
          | error e =>
            rw [paginatedGo_cons_error _ _ _ _ _ hk] at hreq
            simp at hreq
            subst hreq
            exact effectiveParams_ne_sentinel params k hp
          | ok page =>
            rw [paginatedGo_cons_ok _ _ _ _ _ hk] at hreq
            simp at hreq
            rcases hreq with hreq | hreq
            · subst hreq
              exact effectiveParams_ne_sentinel params k hp
            · exact ih (effectiveParams params k) page.nextPageKey
                (acc ++ page.items.getD [])
                (effectiveParams_ne_sentinel params k hp) req hreq
        · rw [paginatedGo_done _ _ _ _ (by simpa [truthy] using hk)] at hreq
          simp at hreq

/-- Witness for C9: a concrete run whose first page answers with the
cursor `firstCall`: the loop issues a second request with the same
params as the first, and the cursor object for `firstCall` never
appears among the issued requests. -/
theorem paginatedCall_firstCall_sentinel_witness :
    (2 ≤ (paginatedGo
        [Except.ok (PageResponse.mk (some "firstCall") (some ([1] : List Int))),
          Except.ok (PageResponse.mk (some "") (some [2]))]
        (some [("filter", JsValue.str "x")]) (some "firstCall") []).requests.length ∧
      (paginatedGo
        [Except.ok (PageResponse.mk (some "firstCall") (some ([1] : List Int))),
          Except.ok (PageResponse.mk (some "") (some [2]))]
        (some [("filter", JsValue.str "x")]) (some "firstCall") []).requests[1]? =
      (paginatedGo
        [Except.ok (PageResponse.mk (some "firstCall") (some ([1] : List Int))),
          Except.ok (PageResponse.mk (some "") (some [2]))]
        (some [("filter", JsValue.str "x")]) (some "firstCall") []).requests[0]?) ∧
    some [("nextPageKey", JsValue.str "firstCall")] ∉
      (paginatedCall
        [Except.ok (PageResponse.mk (some "firstCall") (some ([1] : List Int))),
          Except.ok (PageResponse.mk (some "") (some [2]))]
        (some [("filter", JsValue.str "x")])).requests :=
  ⟨(paginatedCall_firstCall_sentinel (α := Int)).1
      (PageResponse.mk (some "firstCall") (some [1]))
      (PageResponse.mk (some "") (some [2])) []
      (some [("filter", JsValue.str "x")]) [] (some "firstCall")
      (by decide) rfl,
    fun hmem =>
      (paginatedCall_firstCall_sentinel (α := Int)).2
        [Except.ok (PageResponse.mk (some "firstCall") (some [1])),
          Except.ok (PageResponse.mk (some "") (some [2]))]
        (some [("filter", JsValue.str "x")]) (some "firstCall") []
        (by decide) _ hmem rfl⟩

end DynatraceHttp
